import Mathlib

/-!
# Verification development for `lab/lab7/lab/step_10/app.go`

The program is a small HTTP service: `main` runs `dbInit`, registers `handler` on `/` and
listens on `:8080`; `handler` opens a MySQL connection, inserts the request path (minus its
first byte) into `ping.history` and writes a confirmation line.

The embedding is shallow.  Go strings are byte sequences.  Everything outside the program
(the process environment, `database/sql` with its driver and server, the response writer,
`net/http`) is a `World`: a table of environment variables and a transition function that
answers each library call with an error value (or `nil`) and a new external state.  The Go
functions are translated statement by statement into state-passing functions that record every
library call, with the answer it got, in a trace.  A panic is an `Except.error`; deferred calls
are placed on exactly the exits that are reached after the `defer` statement has run.
-/

namespace App

/-! ## Go values -/

/-- A Go `string`: an immutable sequence of bytes. -/
abbrev GoString := List UInt8

/-- The bytes of a string literal of the source (Go source text is UTF-8). -/
def str (s : String) : GoString := s.toUTF8.data.toList

/-- A Go `error` value as the program sees it: `nil`, or an error with its `Error()` text. -/
abbrev GoError := Option GoString

/-- The value carried by a panic. -/
inductive Panic where
  /-- Raised by `panic(err.Error())`, carrying the error text. -/
  | value (msg : GoString)
  /-- The run-time panic of a slice expression `s[lo:]` with `lo > len(s)`. -/
  | sliceBounds (lo len : Nat)
deriving DecidableEq, Repr

deriving instance DecidableEq for Except

/-- A `*sql.DB` handle, identified by the arguments of the `sql.Open` call that returned it. -/
structure DB where
  driverName : GoString
  dataSourceName : GoString
deriving DecidableEq, Repr

/-- The part of `*http.Request` that exists for the program: method and `URL.Path`. -/
structure Request where
  method : GoString
  urlPath : GoString
deriving DecidableEq, Repr

/-- The library calls the program makes. -/
inductive Call where
  /-- The call `sql.Open(driverName, dataSourceName)`. -/
  | sqlOpen (driverName dataSourceName : GoString)
  /-- The call `db.Prepare(query)`. -/
  | dbPrepare (db : DB) (query : GoString)
  /-- The call `stmt.Exec(args...)` on the statement prepared from `query` on `db`. -/
  | stmtExec (db : DB) (query : GoString) (args : List GoString)
  /-- The call `db.ExecContext(ctx, query)`, `ctx` being the 5 second deadline context. -/
  | dbExecContext (db : DB) (query : GoString)
  /-- The call `db.Close()`. -/
  | dbClose (db : DB)
  /-- The call `cancelfunc()` of the deadline context. -/
  | cancelfunc
  /-- A write of the given bytes to the `http.ResponseWriter`. -/
  | write (body : GoString)
  /-- The call `http.HandleFunc(pattern, handler)`. -/
  | handleFunc (pattern : GoString)
  /-- The call `http.ListenAndServe(addr, nil)`. -/
  | listenAndServe (addr : GoString)
  /-- The call `log.Fatal(err)`, which ends the process. -/
  | logFatal (err : GoError)
deriving DecidableEq, Repr

/-- Everything outside the program, over an external state `σ`. -/
structure World (σ : Type) where
  /-- The process environment: `none` for an unset variable. -/
  lookupEnv : GoString → Option GoString
  /-- The answer to a library call: the error it returns (`none` is `nil`) and the new
  external state. -/
  respond : Call → σ → GoError × σ

/-- One entry of a trace: a call and the error it returned. -/
abbrev Event := Call × GoError

/-- The state of a run: the external state and the calls made so far, oldest first. -/
structure St (σ : Type) where
  ext : σ
  trace : List Event

/-- The start of a run on external state `x`. -/
def St.init {σ : Type} (x : σ) : St σ := ⟨x, []⟩

/-- Make a library call: ask the world, log the call with its answer. -/
def call {σ : Type} (w : World σ) (c : Call) (s : St σ) : GoError × St σ :=
  let r := w.respond c s.ext
  (r.1, ⟨r.2, s.trace ++ [(c, r.1)]⟩)

/-! ## Library functions used by the program -/

/-- The function `os.Getenv`: the value of the variable, empty when it is unset. -/
def Getenv {σ : Type} (w : World σ) (key : GoString) : GoString :=
  (w.lookupEnv key).getD []

/-- The slice expression `s[lo:]`: panics unless `lo ≤ len(s)`. -/
def sliceFrom (s : GoString) (lo : Nat) : Except Panic GoString :=
  if lo ≤ s.length then .ok (s.drop lo) else .error (.sliceBounds lo s.length)

/-- The text `string=a, string=b, ...` that `fmt` prints for surplus operands. -/
def extraOperands : List GoString → GoString
  | [] => []
  | [a] => str "string=" ++ a
  | a :: b :: rest => str "string=" ++ a ++ str ", " ++ extraOperands (b :: rest)

/-- The scanning loop of `fmt.Sprintf` for string operands: bytes other than `%` are copied;
`%%` prints a percent sign; `%s` and `%v` consume the next operand and print it as it is; a
directive with no operand left prints `%!c(MISSING)`; a `%` ending the format prints
`%!(NOVERB)`.  Nothing else of `fmt` is modelled: every other byte after `%` is taken as a
one-byte verb and printed in the bad-verb form `%!c(string=...)`, which is what Go prints for
verbs such as `d`, but not for `T`, `q`, `x`, `X`, nor for flags, width, precision or
multi-byte verbs.  The model is exact on formats made of plain bytes, `%s`, `%v` and `%%`,
such as the one format of the program.  Returns the output and the operands not consumed. -/
def doPrintf : GoString → List GoString → GoString × List GoString
  | [], args => ([], args)
  | c :: rest, args =>
    if c ≠ 37 then
      let r := doPrintf rest args
      (c :: r.1, r.2)
    else
      match rest, args with
      | [], args => (str "%!(NOVERB)", args)
      | verb :: rest2, [] =>
        let r := doPrintf rest2 []
        (if verb = 37 then 37 :: r.1 else str "%!" ++ [verb] ++ str "(MISSING)" ++ r.1, r.2)
      | verb :: rest2, a :: args2 =>
        if verb = 37 then
          let r := doPrintf rest2 (a :: args2)
          (37 :: r.1, r.2)
        else
          let r := doPrintf rest2 args2
          ((if verb = 115 ∨ verb = 118 then a
            else str "%!" ++ [verb] ++ str "(string=" ++ a ++ str ")") ++ r.1, r.2)

/-- The function `fmt.Sprintf` for string operands: the scan, then the `%!(EXTRA ...)` note
when operands are left over. -/
def Sprintf (format : GoString) (args : List GoString) : GoString :=
  let r := doPrintf format args
  match r.2 with
  | [] => r.1
  | extra => r.1 ++ str "%!(EXTRA " ++ extraOperands extra ++ str ")"

/-- The function `fmt.Fprintf` on the response writer: format, then write the bytes. -/
def Fprintf {σ : Type} (w : World σ) (format : GoString) (args : List GoString) (s : St σ) :
    GoError × St σ :=
  call w (.write (Sprintf format args)) s

/-! ## The program -/

/-- The statement text of line 18. -/
def insertSQL : GoString := str "INSERT INTO ping.history(message) VALUES (?)"

/-- The statement text of line 40. -/
def createDatabaseSQL : GoString := str "CREATE DATABASE IF NOT EXISTS ping;"

/-- The statement text of line 44. -/
def createTableSQL : GoString :=
  str "CREATE TABLE IF NOT EXISTS ping.history (message CHAR(255));"

/-- The format string of line 25. -/
def responseFormat : GoString := str "Value inserted: %s\n"

/-- Lines 72-78, `getEnv`: the variable, or the default when its value has length 0. -/
def getEnv {σ : Type} (w : World σ) (key defaultValue : GoString) : GoString :=
  let value := Getenv w key
  if value.length == 0 then defaultValue else value

/-- The first argument `getConnection` passes to `sql.Open` (line 54). -/
def driverOf {σ : Type} (w : World σ) : GoString :=
  getEnv w (str "MYSQL_DRIVER") (str "mysql")

/-- The second argument `getConnection` passes to `sql.Open` (lines 55-64). -/
def dsnOf {σ : Type} (w : World σ) (useDB : Bool) : GoString :=
  let dbUser := getEnv w (str "MYSQL_USER") (str "root")
  let dbPass := getEnv w (str "MYSQL_PASSWORD") (str "")
  let dbName := getEnv w (str "MYSQL_DATABASE") (str "ping")
  let dbName := if !useDB then str "" else dbName
  let dbHost := getEnv w (str "MYSQL_HOST") (str "127.0.0.1")
  let dbPort := getEnv w (str "MYSQL_PORT") (str "3306")
  dbUser ++ str ":" ++ dbPass ++ str "@tcp(" ++ dbHost ++ str ":" ++ dbPort ++ str ")/" ++ dbName

/-- Lines 52-69, `getConnection`: resolve the settings, call `sql.Open`, panic on an error. -/
def getConnection {σ : Type} (w : World σ) (useDB : Bool) (s : St σ) :
    Except Panic DB × St σ :=
  let dbDriver := driverOf w
  let dsn := dsnOf w useDB
  match call w (.sqlOpen dbDriver dsn) s with
  | (some err, s1) => (.error (.value err), s1)
  | (none, s1) => (.ok ⟨dbDriver, dsn⟩, s1)

/-- Lines 15-26, `handler`.  The argument `r.URL.Path[1:]` of line 22 is evaluated before
`Exec` is called; the result of `Exec` is dropped; `defer db.Close()` is registered on line 23,
so `db.Close()` runs on the exits reached after that line only. -/
def handler {σ : Type} (w : World σ) (r : Request) (s : St σ) : Except Panic Unit × St σ :=
  match getConnection w true s with
  | (.error p, s1) => (.error p, s1)
  | (.ok db, s1) =>
    match call w (.dbPrepare db insertSQL) s1 with
    | (some err, s2) => (.error (.value err), s2)
    | (none, s2) =>
      match sliceFrom r.urlPath 1 with
      | .error p => (.error p, s2)
      | .ok message =>
        let s3 := (call w (.stmtExec db insertSQL [message]) s2).2
        -- defer db.Close()
        match sliceFrom r.urlPath 1 with
        | .error p => (.error p, (call w (.dbClose db) s3).2)
        | .ok arg =>
          let s4 := (Fprintf w responseFormat [arg] s3).2
          (.ok (), (call w (.dbClose db) s4).2)

/-- Lines 36-49, `dbInit`.  `defer cancelfunc()` is registered first and runs on every exit;
`defer db.Close()` is the last statement (line 48) and runs on the normal exit only. -/
def dbInit {σ : Type} (w : World σ) (s : St σ) : Except Panic Unit × St σ :=
  -- defer cancelfunc()
  match getConnection w false s with
  | (.error p, s1) => (.error p, (call w .cancelfunc s1).2)
  | (.ok db, s1) =>
    match call w (.dbExecContext db createDatabaseSQL) s1 with
    | (some err, s2) => (.error (.value err), (call w .cancelfunc s2).2)
    | (none, s2) =>
      match call w (.dbExecContext db createTableSQL) s2 with
      | (some err, s3) => (.error (.value err), (call w .cancelfunc s3).2)
      | (none, s3) =>
        -- defer db.Close()
        let s4 := (call w (.dbClose db) s3).2
        (.ok (), (call w .cancelfunc s4).2)

/-- Lines 29-33, `main`.  A panic of `dbInit` is not recovered; `log.Fatal` ends the process
with whatever `ListenAndServe` returned. -/
def main {σ : Type} (w : World σ) (s : St σ) : Except Panic Unit × St σ :=
  match dbInit w s with
  | (.error p, s1) => (.error p, s1)
  | (.ok (), s1) =>
    let s2 := (call w (.handleFunc (str "/")) s1).2
    let r := call w (.listenAndServe (str ":8080")) s2
    (.ok (), (call w (.logFatal r.1) r.2).2)

/-! ## The specification's reading of a setting -/

/-- The value of a setting as the specification words it, stated on the environment alone:
the value of the variable when it is set and not empty, the default otherwise.  It is
compared with `getEnv`, which is the code. -/
def envOrDefault (env : GoString → Option GoString) (key dflt : GoString) : GoString :=
  match env key with
  | some (b :: v) => b :: v
  | _ => dflt

/-! ## Observations on a trace -/

/-- Some `sql.Open` call of the trace returned without error. -/
def connectionOpened (t : List Event) : Bool :=
  t.any fun e => match e with
    | (.sqlOpen _ _, none) => true
    | _ => false

/-- Some `db.Prepare` call of the trace returned without error. -/
def statementPrepared (t : List Event) : Bool :=
  t.any fun e => match e with
    | (.dbPrepare _ _, none) => true
    | _ => false

/-- The arguments of the `sql.Open` calls of the trace, in order. -/
def opens (t : List Event) : List DB :=
  t.filterMap fun e => match e with
    | (.sqlOpen d n, _) => some ⟨d, n⟩
    | _ => none

/-- The byte strings written to the response, in order. -/
def writes (t : List Event) : List GoString :=
  t.filterMap fun e => match e with
    | (.write b, _) => some b
    | _ => none

/-- The statement executions of the trace in order: statement text and bound parameters. -/
def execs (t : List Event) : List (GoString × List GoString) :=
  t.filterMap fun e => match e with
    | (.stmtExec _ q args, _) => some (q, args)
    | _ => none

/-- The statement texts passed to `db.Prepare` in the trace, in order. -/
def prepares (t : List Event) : List GoString :=
  t.filterMap fun e => match e with
    | (.dbPrepare _ q, _) => some q
    | _ => none

/-- The handles closed in the trace, in order. -/
def closes (t : List Event) : List DB :=
  t.filterMap fun e => match e with
    | (.dbClose db, _) => some db
    | _ => none

/-- The `ExecContext` commands of the trace in order, each with whether it succeeded. -/
def commands (t : List Event) : List (GoString × Bool) :=
  t.filterMap fun e => match e with
    | (.dbExecContext _ q, err) => some (q, err.isNone)
    | _ => none

/-- The calls to `net/http` in the trace, in order: registered patterns and listen addresses. -/
def served (t : List Event) : List Call :=
  t.filterMap fun e => match e with
    | (.handleFunc p, _) => some (.handleFunc p)
    | (.listenAndServe a, _) => some (.listenAndServe a)
    | _ => none

/-! ## A model of the database server for the two DDL commands -/

/-- The schema state of a MySQL server: its databases, and its tables as
(database, table, column definitions). -/
structure Server where
  databases : List GoString
  tables : List (GoString × GoString × GoString)
deriving DecidableEq, Repr

/-- Whether table `ping.history` exists on the server. -/
def Server.hasHistory (sv : Server) : Bool :=
  sv.tables.any fun t => t.1 == str "ping" && t.2.1 == str "history"

/-- The effect of `CREATE DATABASE IF NOT EXISTS ping;`: a no-op when the database exists. -/
def Server.createPing (sv : Server) : Server :=
  if str "ping" ∈ sv.databases then sv
  else { sv with databases := sv.databases ++ [str "ping"] }

/-- The effect of `CREATE TABLE IF NOT EXISTS ping.history (message CHAR(255));` on a server
that has database `ping`: a no-op when a table `ping.history` exists. -/
def Server.createHistory (sv : Server) : Server :=
  if sv.hasHistory then sv
  else { sv with tables :=
           sv.tables ++ [(str "ping", str "history", str "message CHAR(255)")] }

/-- The server's answer to a call.  The first command always succeeds; the second fails when
database `ping` is missing; any other command text is refused.  Calls other than
`ExecContext` succeed and leave the schema alone. -/
def Server.respond : Call → Server → GoError × Server
  | .dbExecContext _ q, sv =>
    if q = createDatabaseSQL then (none, sv.createPing)
    else if q = createTableSQL then
      if str "ping" ∈ sv.databases then (none, sv.createHistory)
      else (some (str "Unknown database"), sv)
    else (some (str "unsupported statement"), sv)
  | _, sv => (none, sv)

/-- The world made of an environment and the model server. -/
def mysqlWorld (env : GoString → Option GoString) : World Server := ⟨env, Server.respond⟩

/-! ## Concrete worlds used as test inputs -/

/-- The empty environment: every variable unset. -/
def noEnv : GoString → Option GoString := fun _ => none

/-- An environment that selects another database and user and sets an empty password. -/
def customEnv : GoString → Option GoString := fun k =>
  if k = str "MYSQL_DATABASE" then some (str "test")
  else if k = str "MYSQL_USER" then some (str "app")
  else if k = str "MYSQL_PASSWORD" then some (str "")
  else none

/-- An environment that sets all six variables. -/
def fullEnv : GoString → Option GoString := fun k =>
  if k = str "MYSQL_DRIVER" then some (str "mariadb")
  else if k = str "MYSQL_USER" then some (str "app")
  else if k = str "MYSQL_PASSWORD" then some (str "s3cret")
  else if k = str "MYSQL_DATABASE" then some (str "test")
  else if k = str "MYSQL_HOST" then some (str "db.internal")
  else if k = str "MYSQL_PORT" then some (str "3307")
  else none

/-- A world without external state in which exactly the calls picked by `fails` return an
error. -/
def scriptedWorld (env : GoString → Option GoString) (fails : Call → Bool) : World Unit :=
  ⟨env, fun c _ => (if fails c then some (str "refused") else none, ())⟩

/-- The calls `sql.Open`. -/
def failsOpen : Call → Bool
  | .sqlOpen _ _ => true
  | _ => false

/-- The calls `db.ExecContext(ctx, q)` with the given command text. -/
def failsCommand (q : GoString) : Call → Bool
  | .dbExecContext _ q2 => q2 == q
  | _ => false

/-- A server on which nothing has been created yet. -/
def emptyServer : Server := ⟨[str "mysql"], []⟩

/-- A server that holds `ping.history` next to other objects. -/
def readyServer : Server :=
  ⟨[str "mysql", str "ping"],
   [(str "mysql", str "user", str "Host CHAR(255)"),
    (str "ping", str "history", str "message CHAR(255)")]⟩

/-- A world with no variables set in which every call succeeds. -/
def okWorld : World Unit := scriptedWorld noEnv fun _ => false

/-- The world `w` with the error returned by every `stmt.Exec` call replaced by `e`; all
other answers and all state changes are those of `w`. -/
def World.withExecResult {σ : Type} (w : World σ) (e : GoError) : World σ where
  lookupEnv := w.lookupEnv
  respond := fun c x => match c with
    | .stmtExec _ _ _ => (e, (w.respond c x).2)
    | _ => w.respond c x

/-! ## Basic facts -/

theorem str_slash : str "/" = [47] := by decide

theorem format_output (P : GoString) :
    Sprintf responseFormat [P] = str "Value inserted: " ++ P ++ str "\n" := rfl

theorem sliceFrom_cons (b : UInt8) (P : GoString) : sliceFrom (b :: P) 1 = .ok P := by
  simp [sliceFrom]

theorem sliceFrom_nil : sliceFrom [] 1 = .error (.sliceBounds 1 0) := by
  simp [sliceFrom]

/-- The three ways a run of `handler` on a non-empty path can go: `sql.Open` fails, `Prepare`
fails, or the run goes through to the end. -/
theorem handler_cons_cases {σ : Type} (w : World σ) (x : σ) (m : GoString) (b : UInt8)
    (P : GoString) :
    (∃ err x1, handler w ⟨m, b :: P⟩ (St.init x) =
      (.error (.value err), ⟨x1, [(.sqlOpen (driverOf w) (dsnOf w true), some err)]⟩)) ∨
    (∃ err x2, handler w ⟨m, b :: P⟩ (St.init x) =
      (.error (.value err), ⟨x2, [(.sqlOpen (driverOf w) (dsnOf w true), none),
        (.dbPrepare ⟨driverOf w, dsnOf w true⟩ insertSQL, some err)]⟩)) ∨
    (∃ e f c x5, handler w ⟨m, b :: P⟩ (St.init x) =
      (.ok (), ⟨x5, [(.sqlOpen (driverOf w) (dsnOf w true), none),
        (.dbPrepare ⟨driverOf w, dsnOf w true⟩ insertSQL, none),
        (.stmtExec ⟨driverOf w, dsnOf w true⟩ insertSQL [P], e),
        (.write (str "Value inserted: " ++ P ++ str "\n"), f),
        (.dbClose ⟨driverOf w, dsnOf w true⟩, c)]⟩)) := by
  unfold handler getConnection call
  simp only [St.init, sliceFrom_cons, Fprintf, call, format_output, List.nil_append,
    List.cons_append]
  rcases ho : w.respond (Call.sqlOpen (driverOf w) (dsnOf w true)) x with ⟨_ | err, x1⟩
  · rcases hp : w.respond (Call.dbPrepare ⟨driverOf w, dsnOf w true⟩ insertSQL) x1
      with ⟨_ | err, x2⟩
    · right; right
      simp [hp]
    · right; left
      simp [hp]
  · left
    simp

/-- The three ways a run of `handler` on the empty path can go: `sql.Open` fails, `Prepare`
fails, or the slice expression of line 22 panics. -/
theorem handler_nil_cases {σ : Type} (w : World σ) (x : σ) (m : GoString) :
    (∃ err x1, handler w ⟨m, []⟩ (St.init x) =
      (.error (.value err), ⟨x1, [(.sqlOpen (driverOf w) (dsnOf w true), some err)]⟩)) ∨
    (∃ err x2, handler w ⟨m, []⟩ (St.init x) =
      (.error (.value err), ⟨x2, [(.sqlOpen (driverOf w) (dsnOf w true), none),
        (.dbPrepare ⟨driverOf w, dsnOf w true⟩ insertSQL, some err)]⟩)) ∨
    (∃ x2, handler w ⟨m, []⟩ (St.init x) =
      (.error (.sliceBounds 1 0), ⟨x2, [(.sqlOpen (driverOf w) (dsnOf w true), none),
        (.dbPrepare ⟨driverOf w, dsnOf w true⟩ insertSQL, none)]⟩)) := by
  unfold handler getConnection call
  simp only [St.init, sliceFrom_nil, List.nil_append, List.cons_append]
  rcases ho : w.respond (Call.sqlOpen (driverOf w) (dsnOf w true)) x with ⟨_ | err, x1⟩
  · rcases hp : w.respond (Call.dbPrepare ⟨driverOf w, dsnOf w true⟩ insertSQL) x1
      with ⟨_ | err, x2⟩
    · right; right
      simp [hp]
    · right; left
      simp [hp]
  · left
    simp

/-- The four ways a run of `dbInit` can go, each with the answers of the world that lead to
it: `sql.Open` fails, the first command fails, the second command fails, or both succeed. -/
theorem dbInit_cases {σ : Type} (w : World σ) (x : σ) :
    (∃ err c x0 x1,
      w.respond (.sqlOpen (driverOf w) (dsnOf w false)) x = (some err, x0) ∧
      dbInit w (St.init x) =
      (.error (.value err), ⟨x1, [(.sqlOpen (driverOf w) (dsnOf w false), some err),
        (.cancelfunc, c)]⟩)) ∨
    (∃ err c x0 x1 x2,
      w.respond (.sqlOpen (driverOf w) (dsnOf w false)) x = (none, x0) ∧
      w.respond (.dbExecContext ⟨driverOf w, dsnOf w false⟩ createDatabaseSQL) x0
        = (some err, x1) ∧
      dbInit w (St.init x) =
      (.error (.value err), ⟨x2, [(.sqlOpen (driverOf w) (dsnOf w false), none),
        (.dbExecContext ⟨driverOf w, dsnOf w false⟩ createDatabaseSQL, some err),
        (.cancelfunc, c)]⟩)) ∨
    (∃ err c x0 x1 x2 x3,
      w.respond (.sqlOpen (driverOf w) (dsnOf w false)) x = (none, x0) ∧
      w.respond (.dbExecContext ⟨driverOf w, dsnOf w false⟩ createDatabaseSQL) x0
        = (none, x1) ∧
      w.respond (.dbExecContext ⟨driverOf w, dsnOf w false⟩ createTableSQL) x1
        = (some err, x2) ∧
      dbInit w (St.init x) =
      (.error (.value err), ⟨x3, [(.sqlOpen (driverOf w) (dsnOf w false), none),
        (.dbExecContext ⟨driverOf w, dsnOf w false⟩ createDatabaseSQL, none),
        (.dbExecContext ⟨driverOf w, dsnOf w false⟩ createTableSQL, some err),
        (.cancelfunc, c)]⟩)) ∨
    (∃ cl c x0 x1 x2 x3,
      w.respond (.sqlOpen (driverOf w) (dsnOf w false)) x = (none, x0) ∧
      w.respond (.dbExecContext ⟨driverOf w, dsnOf w false⟩ createDatabaseSQL) x0
        = (none, x1) ∧
      w.respond (.dbExecContext ⟨driverOf w, dsnOf w false⟩ createTableSQL) x1
        = (none, x2) ∧
      dbInit w (St.init x) =
      (.ok (), ⟨x3, [(.sqlOpen (driverOf w) (dsnOf w false), none),
        (.dbExecContext ⟨driverOf w, dsnOf w false⟩ createDatabaseSQL, none),
        (.dbExecContext ⟨driverOf w, dsnOf w false⟩ createTableSQL, none),
        (.dbClose ⟨driverOf w, dsnOf w false⟩, cl),
        (.cancelfunc, c)]⟩)) := by
  unfold dbInit getConnection call
  simp only [St.init, List.nil_append, List.cons_append]
  rcases ho : w.respond (Call.sqlOpen (driverOf w) (dsnOf w false)) x with ⟨_ | err, x1⟩
  · rcases h1 : w.respond (Call.dbExecContext ⟨driverOf w, dsnOf w false⟩ createDatabaseSQL) x1
      with ⟨_ | err, x2⟩
    · rcases h2 : w.respond (Call.dbExecContext ⟨driverOf w, dsnOf w false⟩ createTableSQL) x2
        with ⟨_ | err, x3⟩
      · right; right; right
        simp [h1, h2]
      · right; right; left
        simp [h1, h2]
    · right; left
      simp [h1]
  · left
    simp

/-- A run of `main` is the run of `dbInit`, followed on its normal exit only by the
registration of the handler, the listener and `log.Fatal`. -/
theorem main_cases {σ : Type} (w : World σ) (x : σ) :
    (∃ p, (dbInit w (St.init x)).1 = .error p ∧ main w (St.init x) = dbInit w (St.init x)) ∨
    (∃ h l f x1, (dbInit w (St.init x)).1 = .ok () ∧
      main w (St.init x) = (.ok (), ⟨x1, (dbInit w (St.init x)).2.trace ++
        [(.handleFunc (str "/"), h), (.listenAndServe (str ":8080"), l), (.logFatal l, f)]⟩)) := by
  unfold main call
  rcases hd : dbInit w (St.init x) with ⟨_ | _, s1⟩
  · left
    simp
  · right
    simp

/-- The code's `getEnv` computes the setting the specification describes. -/
theorem getEnv_eq_envOrDefault {σ : Type} (w : World σ) (key dflt : GoString) :
    getEnv w key dflt = envOrDefault w.lookupEnv key dflt := by
  unfold getEnv Getenv envOrDefault
  cases h : w.lookupEnv key with
  | none => simp
  | some v =>
    cases v with
    | nil => simp
    | cons b t => simp

theorem envOrDefault_of_set (env : GoString → Option GoString) (key dflt v : GoString)
    (h : env key = some v) (hv : v ≠ []) : envOrDefault env key dflt = v := by
  unfold envOrDefault
  cases v with
  | nil => exact absurd rfl hv
  | cons b t => simp [h]

/-- In every run `handler` calls `sql.Open` exactly once, as `getConnection(true)` does. -/
theorem handler_opens {σ : Type} (w : World σ) (r : Request) (x : σ) :
    opens (handler w r (St.init x)).2.trace = [⟨driverOf w, dsnOf w true⟩] := by
  rcases r with ⟨m, _ | ⟨b, P⟩⟩
  · rcases handler_nil_cases w x m with ⟨_, _, h⟩ | ⟨_, _, h⟩ | ⟨_, h⟩ <;> simp [h, opens]
  · rcases handler_cons_cases w x m b P with ⟨_, _, h⟩ | ⟨_, _, h⟩ | ⟨_, _, _, _, h⟩ <;>
      simp [h, opens]

/-- The connection string built with `useDB = true` ends in `/` and the database setting. -/
theorem dsnOf_true_suffix {σ : Type} (w : World σ) :
    (str "/" ++ getEnv w (str "MYSQL_DATABASE") (str "ping")) <:+ dsnOf w true := by
  refine ⟨getEnv w (str "MYSQL_USER") (str "root") ++ str ":" ++
    getEnv w (str "MYSQL_PASSWORD") (str "") ++ str "@tcp(" ++
    getEnv w (str "MYSQL_HOST") (str "127.0.0.1") ++ str ":" ++
    getEnv w (str "MYSQL_PORT") (str "3306") ++ str ")", ?_⟩
  have h : str ")/" = str ")" ++ str "/" := by decide
  simp [dsnOf, h]

theorem driverOf_withExecResult {σ : Type} (w : World σ) (e : GoError) :
    driverOf (w.withExecResult e) = driverOf w := rfl

theorem dsnOf_withExecResult {σ : Type} (w : World σ) (e : GoError) (u : Bool) :
    dsnOf (w.withExecResult e) u = dsnOf w u := rfl

theorem withExecResult_sqlOpen {σ : Type} (w : World σ) (e : GoError) (d n : GoString)
    (x : σ) : (w.withExecResult e).respond (.sqlOpen d n) x = w.respond (.sqlOpen d n) x := rfl

theorem withExecResult_dbPrepare {σ : Type} (w : World σ) (e : GoError) (db : DB)
    (q : GoString) (x : σ) :
    (w.withExecResult e).respond (.dbPrepare db q) x = w.respond (.dbPrepare db q) x := rfl

theorem withExecResult_stmtExec {σ : Type} (w : World σ) (e : GoError) (db : DB)
    (q : GoString) (args : List GoString) (x : σ) :
    (w.withExecResult e).respond (.stmtExec db q args) x =
      (e, (w.respond (.stmtExec db q args) x).2) := rfl

theorem withExecResult_write {σ : Type} (w : World σ) (e : GoError) (body : GoString)
    (x : σ) : (w.withExecResult e).respond (.write body) x = w.respond (.write body) x := rfl

theorem withExecResult_dbClose {σ : Type} (w : World σ) (e : GoError) (db : DB) (x : σ) :
    (w.withExecResult e).respond (.dbClose db) x = w.respond (.dbClose db) x := rfl

/-- The runs of `handler` on a non-empty path in the worlds `w.withExecResult e`: which way
the run goes, and everything in it but the error logged for `Exec`, is the same for all `e`. -/
theorem handler_cons_withExecResult {σ : Type} (w : World σ) (x : σ) (m : GoString)
    (b : UInt8) (P : GoString) :
    (∃ err x1, ∀ e, handler (w.withExecResult e) ⟨m, b :: P⟩ (St.init x) =
      (.error (.value err), ⟨x1, [(.sqlOpen (driverOf w) (dsnOf w true), some err)]⟩)) ∨
    (∃ err x2, ∀ e, handler (w.withExecResult e) ⟨m, b :: P⟩ (St.init x) =
      (.error (.value err), ⟨x2, [(.sqlOpen (driverOf w) (dsnOf w true), none),
        (.dbPrepare ⟨driverOf w, dsnOf w true⟩ insertSQL, some err)]⟩)) ∨
    (∃ f c x5, ∀ e, handler (w.withExecResult e) ⟨m, b :: P⟩ (St.init x) =
      (.ok (), ⟨x5, [(.sqlOpen (driverOf w) (dsnOf w true), none),
        (.dbPrepare ⟨driverOf w, dsnOf w true⟩ insertSQL, none),
        (.stmtExec ⟨driverOf w, dsnOf w true⟩ insertSQL [P], e),
        (.write (str "Value inserted: " ++ P ++ str "\n"), f),
        (.dbClose ⟨driverOf w, dsnOf w true⟩, c)]⟩)) := by
  unfold handler getConnection call
  simp only [St.init, sliceFrom_cons, Fprintf, call, format_output, List.nil_append,
    List.cons_append, driverOf_withExecResult, dsnOf_withExecResult, withExecResult_sqlOpen,
    withExecResult_dbPrepare, withExecResult_stmtExec, withExecResult_write,
    withExecResult_dbClose]
  rcases ho : w.respond (Call.sqlOpen (driverOf w) (dsnOf w true)) x with ⟨_ | err, x1⟩
  · rcases hp : w.respond (Call.dbPrepare ⟨driverOf w, dsnOf w true⟩ insertSQL) x1
      with ⟨_ | err, x2⟩
    · right; right
      simp [hp]
    · right; left
      simp [hp]
  · left
    simp

/-- On the empty path `Exec` is not reached, so the run in `w.withExecResult e` is the run
in `w`. -/
theorem handler_nil_withExecResult {σ : Type} (w : World σ) (x : σ) (m : GoString)
    (e : GoError) :
    handler (w.withExecResult e) ⟨m, []⟩ (St.init x) = handler w ⟨m, []⟩ (St.init x) := by
  unfold handler getConnection call
  simp only [St.init, sliceFrom_nil, List.nil_append, List.cons_append,
    driverOf_withExecResult, dsnOf_withExecResult, withExecResult_sqlOpen,
    withExecResult_dbPrepare]

theorem createTableSQL_ne : createTableSQL ≠ createDatabaseSQL := by decide

theorem createPing_has_ping (sv : Server) : str "ping" ∈ sv.createPing.databases := by
  unfold Server.createPing
  split <;> simp_all

theorem createPing_of_mem (sv : Server) (h : str "ping" ∈ sv.databases) :
    sv.createPing = sv := by
  simp [Server.createPing, h]

theorem createHistory_of_has (sv : Server) (h : sv.hasHistory = true) :
    sv.createHistory = sv := by
  simp [Server.createHistory, h]

theorem createHistory_has (sv : Server) : sv.createHistory.hasHistory = true := by
  unfold Server.createHistory
  split
  · assumption
  · simp [Server.hasHistory]

theorem createHistory_databases (sv : Server) :
    sv.createHistory.databases = sv.databases := by
  unfold Server.createHistory
  split <;> rfl

/-- Against the model server `dbInit` always returns normally, leaving the server as the two
commands leave it. -/
theorem dbInit_mysqlWorld (env : GoString → Option GoString) (s : St Server) :
    (dbInit (mysqlWorld env) s).1 = .ok () ∧
    (dbInit (mysqlWorld env) s).2.ext = s.ext.createPing.createHistory := by
  unfold dbInit getConnection call
  simp [mysqlWorld, Server.respond, createTableSQL_ne, createPing_has_ping]

/-- On a server with nothing on it `dbInit` creates database `ping` and table `ping.history`
with the one column of the source. -/
theorem dbInit_creates_schema :
    (dbInit (mysqlWorld noEnv) (St.init emptyServer)).2.ext =
      ⟨[str "mysql", str "ping"], [(str "ping", str "history", str "message CHAR(255)")]⟩ := by
  decide

/-- The four runs of `main`, each with the answers of the world that lead to it and with
what it does. -/
theorem startup_runs {σ : Type} (w : World σ) (x : σ) :
    (∃ err x0,
      w.respond (.sqlOpen (driverOf w) (dsnOf w false)) x = (some err, x0) ∧
      (dbInit w (St.init x)).1 = .error (.value err) ∧
      (main w (St.init x)).1 = .error (.value err) ∧
      commands (main w (St.init x)).2.trace = [] ∧
      served (main w (St.init x)).2.trace = []) ∨
    (∃ err x0 x1,
      w.respond (.sqlOpen (driverOf w) (dsnOf w false)) x = (none, x0) ∧
      w.respond (.dbExecContext ⟨driverOf w, dsnOf w false⟩ createDatabaseSQL) x0
        = (some err, x1) ∧
      (dbInit w (St.init x)).1 = .error (.value err) ∧
      (main w (St.init x)).1 = .error (.value err) ∧
      commands (main w (St.init x)).2.trace =
        [(str "CREATE DATABASE IF NOT EXISTS ping;", false)] ∧
      served (main w (St.init x)).2.trace = []) ∨
    (∃ err x0 x1 x2,
      w.respond (.sqlOpen (driverOf w) (dsnOf w false)) x = (none, x0) ∧
      w.respond (.dbExecContext ⟨driverOf w, dsnOf w false⟩ createDatabaseSQL) x0
        = (none, x1) ∧
      w.respond (.dbExecContext ⟨driverOf w, dsnOf w false⟩ createTableSQL) x1
        = (some err, x2) ∧
      (dbInit w (St.init x)).1 = .error (.value err) ∧
      (main w (St.init x)).1 = .error (.value err) ∧
      commands (main w (St.init x)).2.trace =
        [(str "CREATE DATABASE IF NOT EXISTS ping;", true),
         (str "CREATE TABLE IF NOT EXISTS ping.history (message CHAR(255));", false)] ∧
      served (main w (St.init x)).2.trace = []) ∨
    (∃ x0 x1 x2,
      w.respond (.sqlOpen (driverOf w) (dsnOf w false)) x = (none, x0) ∧
      w.respond (.dbExecContext ⟨driverOf w, dsnOf w false⟩ createDatabaseSQL) x0
        = (none, x1) ∧
      w.respond (.dbExecContext ⟨driverOf w, dsnOf w false⟩ createTableSQL) x1
        = (none, x2) ∧
      (dbInit w (St.init x)).1 = .ok () ∧
      (main w (St.init x)).1 = .ok () ∧
      commands (main w (St.init x)).2.trace =
        [(str "CREATE DATABASE IF NOT EXISTS ping;", true),
         (str "CREATE TABLE IF NOT EXISTS ping.history (message CHAR(255));", true)] ∧
      served (main w (St.init x)).2.trace =
        [.handleFunc (str "/"), .listenAndServe (str ":8080")]) := by
  rcases dbInit_cases w x with ⟨e, _, x0, _, ho, h⟩ | ⟨e, _, x0, x1, _, ho, h1, h⟩ |
      ⟨e, _, x0, x1, x2, _, ho, h1, h2, h⟩ | ⟨_, _, x0, x1, x2, _, ho, h1, h2, h⟩
  · left
    refine ⟨e, x0, ho, ?_⟩
    rcases main_cases w x with ⟨p, hp, hm⟩ | ⟨_, _, _, _, hok, hm⟩
    · rw [hm]; simp [h, commands, served]
    · simp [h] at hok
  · right; left
    refine ⟨e, x0, x1, ho, h1, ?_⟩
    rcases main_cases w x with ⟨p, hp, hm⟩ | ⟨_, _, _, _, hok, hm⟩
    · rw [hm]; simp [h, commands, served, createDatabaseSQL]
    · simp [h] at hok
  · right; right; left
    refine ⟨e, x0, x1, x2, ho, h1, h2, ?_⟩
    rcases main_cases w x with ⟨p, hp, hm⟩ | ⟨_, _, _, _, hok, hm⟩
    · rw [hm]; simp [h, commands, served, createDatabaseSQL, createTableSQL]
    · simp [h] at hok
  · right; right; right
    refine ⟨x0, x1, x2, ho, h1, h2, ?_⟩
    rcases main_cases w x with ⟨p, hp, hm⟩ | ⟨_, _, _, _, hok, hm⟩
    · simp [h] at hp
    · rw [hm]; simp [h, commands, served, createDatabaseSQL, createTableSQL]

/-! ## The claims -/

/-- C9: `getEnv(key, defaultValue)` returns the environment's value for `key` when that value
is non-empty and `defaultValue` otherwise, a variable set to the empty string being treated
like an unset one; so the result is empty only if `defaultValue` is empty. -/
theorem getEnv_value_or_default {σ : Type} (w : World σ) (key defaultValue : GoString) :
    (∀ v, w.lookupEnv key = some v → v ≠ [] → getEnv w key defaultValue = v) ∧
    (w.lookupEnv key = none → getEnv w key defaultValue = defaultValue) ∧
    (w.lookupEnv key = some [] → getEnv w key defaultValue = defaultValue) ∧
    (getEnv w key defaultValue = [] → defaultValue = []) := by
  unfold getEnv Getenv
  refine ⟨?_, ?_, ?_, ?_⟩
  · intro v hv hne
    simp [hv, hne]
  · intro hv
    simp [hv]
  · intro hv
    simp [hv]
  · cases hv : w.lookupEnv key with
    | none => simp
    | some v =>
      cases v with
      | nil => simp
      | cons b t => simp

theorem getEnv_value_or_default_witness :
    (scriptedWorld customEnv fun _ => false).lookupEnv (str "MYSQL_USER") = some (str "app") ∧
    str "app" ≠ [] ∧
    getEnv (scriptedWorld customEnv fun _ => false) (str "MYSQL_USER") (str "root")
      = str "app" ∧
    (scriptedWorld customEnv fun _ => false).lookupEnv (str "MYSQL_HOST") = none ∧
    getEnv (scriptedWorld customEnv fun _ => false) (str "MYSQL_HOST") (str "127.0.0.1")
      = str "127.0.0.1" ∧
    (scriptedWorld customEnv fun _ => false).lookupEnv (str "MYSQL_PASSWORD") = some [] ∧
    getEnv (scriptedWorld customEnv fun _ => false) (str "MYSQL_PASSWORD") (str "secret")
      = str "secret" ∧
    getEnv okWorld (str "MYSQL_PASSWORD") [] = [] ∧
    ([] : GoString) = [] :=
  ⟨by decide, by decide,
   (getEnv_value_or_default _ (str "MYSQL_USER") (str "root")).1 _ (by decide) (by decide),
   by decide,
   (getEnv_value_or_default _ (str "MYSQL_HOST") (str "127.0.0.1")).2.1 (by decide),
   by decide,
   (getEnv_value_or_default _ (str "MYSQL_PASSWORD") (str "secret")).2.2.1 (by decide),
   by decide,
   (getEnv_value_or_default okWorld (str "MYSQL_PASSWORD") []).2.2.2 (by decide)⟩

/-- C4: for every environment `getConnection(useDB)` calls `sql.Open` once, with driver `D`
and connection string `U:P@tcp(H:Port)/N`, where `D, U, P, H, Port` are the values of
`MYSQL_DRIVER`, `MYSQL_USER`, `MYSQL_PASSWORD`, `MYSQL_HOST`, `MYSQL_PORT` when set and not
empty and otherwise the defaults `mysql`, `root`, empty, `127.0.0.1`, `3306`, and `N` is empty
when `useDB` is false and otherwise `MYSQL_DATABASE` or its default `ping`.  So when all six
variables are set the driver and the string are made of their values; for `useDB = false` the
call is the same whatever `MYSQL_DATABASE` is; and with the environment unset the strings are
`root:@tcp(127.0.0.1:3306)/` and `root:@tcp(127.0.0.1:3306)/ping`, the driver `mysql`. -/
theorem getConnection_connection_string {σ : Type} (w : World σ) (useDB : Bool) (x : σ) :
    opens (getConnection w useDB (St.init x)).2.trace =
      [⟨envOrDefault w.lookupEnv (str "MYSQL_DRIVER") (str "mysql"),
        envOrDefault w.lookupEnv (str "MYSQL_USER") (str "root") ++ str ":" ++
        envOrDefault w.lookupEnv (str "MYSQL_PASSWORD") (str "") ++ str "@tcp(" ++
        envOrDefault w.lookupEnv (str "MYSQL_HOST") (str "127.0.0.1") ++ str ":" ++
        envOrDefault w.lookupEnv (str "MYSQL_PORT") (str "3306") ++ str ")/" ++
        (if useDB then envOrDefault w.lookupEnv (str "MYSQL_DATABASE") (str "ping")
         else str "")⟩] ∧
    (∀ d u p h port n : GoString,
      w.lookupEnv (str "MYSQL_DRIVER") = some d → d ≠ [] →
      w.lookupEnv (str "MYSQL_USER") = some u → u ≠ [] →
      w.lookupEnv (str "MYSQL_PASSWORD") = some p →
      w.lookupEnv (str "MYSQL_HOST") = some h → h ≠ [] →
      w.lookupEnv (str "MYSQL_PORT") = some port → port ≠ [] →
      w.lookupEnv (str "MYSQL_DATABASE") = some n → n ≠ [] →
      opens (getConnection w true (St.init x)).2.trace =
        [⟨d, u ++ str ":" ++ p ++ str "@tcp(" ++ h ++ str ":" ++ port ++ str ")/" ++ n⟩] ∧
      opens (getConnection w false (St.init x)).2.trace =
        [⟨d, u ++ str ":" ++ p ++ str "@tcp(" ++ h ++ str ":" ++ port ++ str ")/"⟩]) ∧
    (∀ w2 : World σ,
      (∀ k, k ≠ str "MYSQL_DATABASE" → w2.lookupEnv k = w.lookupEnv k) →
      opens (getConnection w2 false (St.init x)).2.trace =
        opens (getConnection w false (St.init x)).2.trace) ∧
    ((∀ k, w.lookupEnv k = none) →
      opens (getConnection w false (St.init x)).2.trace =
        [⟨str "mysql", str "root:@tcp(127.0.0.1:3306)/"⟩] ∧
      opens (getConnection w true (St.init x)).2.trace =
        [⟨str "mysql", str "root:@tcp(127.0.0.1:3306)/ping"⟩]) := by
  have hopens : ∀ (v : World σ) (u : Bool),
      opens (getConnection v u (St.init x)).2.trace = [⟨driverOf v, dsnOf v u⟩] := by
    intro v u
    unfold getConnection call
    simp only [St.init, List.nil_append]
    rcases ho : v.respond (Call.sqlOpen (driverOf v) (dsnOf v u)) x with ⟨_ | err, x1⟩ <;>
      simp [opens]
  refine ⟨?_, ?_, ?_, ?_⟩
  · rw [hopens]
    cases useDB <;> simp [driverOf, dsnOf, getEnv_eq_envOrDefault]
  · intro d u p h port n hd hd0 hu hu0 hp hh hh0 hport hport0 hn hn0
    have hpass : envOrDefault w.lookupEnv (str "MYSQL_PASSWORD") (str "") = p := by
      unfold envOrDefault
      cases p with
      | nil => simp [hp]; decide
      | cons b t => simp [hp]
    rw [hopens, hopens]
    simp only [driverOf, dsnOf, getEnv_eq_envOrDefault,
      envOrDefault_of_set _ _ _ _ hd hd0, envOrDefault_of_set _ _ _ _ hu hu0,
      envOrDefault_of_set _ _ _ _ hh hh0, envOrDefault_of_set _ _ _ _ hport hport0,
      envOrDefault_of_set _ _ _ _ hn hn0, hpass]
    have he : str "" = [] := by decide
    simp [he]
  · intro w2 hw2
    have hk : ∀ k d, k ≠ str "MYSQL_DATABASE" → getEnv w2 k d = getEnv w k d := by
      intro k d hne
      simp [getEnv, Getenv, hw2 k hne]
    rw [hopens, hopens]
    simp only [driverOf, dsnOf]
    rw [hk _ _ (by decide), hk _ _ (by decide), hk _ _ (by decide), hk _ _ (by decide),
      hk _ _ (by decide)]
    simp
  · intro hnone
    have hd : ∀ k d, getEnv w k d = d := by
      intro k d
      simp [getEnv, Getenv, hnone k]
    rw [hopens, hopens]
    simp only [driverOf, dsnOf, hd]
    constructor <;> decide

theorem getConnection_connection_string_witness :
    ((scriptedWorld fullEnv fun _ => false).lookupEnv (str "MYSQL_DRIVER")
        = some (str "mariadb") ∧ str "mariadb" ≠ [] ∧
      (scriptedWorld fullEnv fun _ => false).lookupEnv (str "MYSQL_USER")
        = some (str "app") ∧ str "app" ≠ [] ∧
      (scriptedWorld fullEnv fun _ => false).lookupEnv (str "MYSQL_PASSWORD")
        = some (str "s3cret") ∧
      (scriptedWorld fullEnv fun _ => false).lookupEnv (str "MYSQL_HOST")
        = some (str "db.internal") ∧ str "db.internal" ≠ [] ∧
      (scriptedWorld fullEnv fun _ => false).lookupEnv (str "MYSQL_PORT")
        = some (str "3307") ∧ str "3307" ≠ [] ∧
      (scriptedWorld fullEnv fun _ => false).lookupEnv (str "MYSQL_DATABASE")
        = some (str "test") ∧ str "test" ≠ []) ∧
    (opens (getConnection (scriptedWorld fullEnv fun _ => false) true (St.init ())).2.trace =
        [⟨str "mariadb", str "app" ++ str ":" ++ str "s3cret" ++ str "@tcp(" ++
          str "db.internal" ++ str ":" ++ str "3307" ++ str ")/" ++ str "test"⟩] ∧
      opens (getConnection (scriptedWorld fullEnv fun _ => false) false (St.init ())).2.trace =
        [⟨str "mariadb", str "app" ++ str ":" ++ str "s3cret" ++ str "@tcp(" ++
          str "db.internal" ++ str ":" ++ str "3307" ++ str ")/"⟩]) ∧
    str "app" ++ str ":" ++ str "s3cret" ++ str "@tcp(" ++ str "db.internal" ++ str ":" ++
      str "3307" ++ str ")/" ++ str "test" = str "app:s3cret@tcp(db.internal:3307)/test" ∧
    (∀ k, k ≠ str "MYSQL_DATABASE" →
      (scriptedWorld customEnv fun _ => false).lookupEnv k =
        (scriptedWorld
          (fun k => if k = str "MYSQL_DATABASE" then none else customEnv k)
          fun _ => false).lookupEnv k) ∧
    opens (getConnection (scriptedWorld customEnv fun _ => false) false (St.init ())).2.trace =
      opens (getConnection (scriptedWorld
          (fun k => if k = str "MYSQL_DATABASE" then none else customEnv k)
          fun _ => false) false (St.init ())).2.trace ∧
    (∀ k, okWorld.lookupEnv k = none) ∧
    opens (getConnection okWorld false (St.init ())).2.trace =
      [⟨str "mysql", str "root:@tcp(127.0.0.1:3306)/"⟩] ∧
    opens (getConnection okWorld true (St.init ())).2.trace =
      [⟨str "mysql", str "root:@tcp(127.0.0.1:3306)/ping"⟩] :=
  ⟨by decide,
   (getConnection_connection_string (scriptedWorld fullEnv fun _ => false) true ()).2.1
     (str "mariadb") (str "app") (str "s3cret") (str "db.internal") (str "3307") (str "test")
     (by decide) (by decide) (by decide) (by decide) (by decide) (by decide) (by decide)
     (by decide) (by decide) (by decide) (by decide),
   by decide,
   fun k hk => by simp [scriptedWorld, hk],
   (getConnection_connection_string _ false ()).2.2.1 _
     (fun k hk => by simp [scriptedWorld, hk]),
   fun _ => rfl,
   ((getConnection_connection_string okWorld false ()).2.2.2 (fun _ => rfl)).1,
   ((getConnection_connection_string okWorld false ()).2.2.2 (fun _ => rfl)).2⟩

/-- C8, as stated, fails: with `MYSQL_DATABASE=test` (and `MYSQL_USER=app`) the connection
that `handler` opens for `GET /hello` has the connection string
`app:@tcp(127.0.0.1:3306)/test`, which does not end in `/ping`. -/
theorem handler_connection_not_always_ping :
    opens (handler (scriptedWorld customEnv fun _ => false) ⟨str "GET", str "/hello"⟩
        (St.init ())).2.trace =
      [⟨str "mysql", str "app:@tcp(127.0.0.1:3306)/test"⟩] ∧
    ¬ (∀ db ∈ opens (handler (scriptedWorld customEnv fun _ => false)
          ⟨str "GET", str "/hello"⟩ (St.init ())).2.trace,
        str "/ping" <:+ db.dataSourceName) := by
  decide

/-- C8, amended: for every environment and every request, the one connection `handler` opens
is scoped to the database named by `MYSQL_DATABASE` when that variable is set and not empty,
and to `ping` otherwise: its connection string ends in `/` followed by that name, hence in
`/ping` whenever `MYSQL_DATABASE` is unset or empty.  The insert statement does not follow
that choice: every statement `handler` prepares or executes is the text
`INSERT INTO ping.history(message) VALUES (?)`, which names its table as `ping.history`. -/
theorem handler_connection_database {σ : Type} (w : World σ) (r : Request) (x : σ) :
    (∃ db, opens (handler w r (St.init x)).2.trace = [db] ∧
      (str "/" ++ envOrDefault w.lookupEnv (str "MYSQL_DATABASE") (str "ping"))
        <:+ db.dataSourceName) ∧
    (∀ v : GoString, w.lookupEnv (str "MYSQL_DATABASE") = some v → v ≠ [] →
      ∀ db ∈ opens (handler w r (St.init x)).2.trace, (str "/" ++ v) <:+ db.dataSourceName) ∧
    (w.lookupEnv (str "MYSQL_DATABASE") = none ∨ w.lookupEnv (str "MYSQL_DATABASE") = some [] →
      ∀ db ∈ opens (handler w r (St.init x)).2.trace, str "/ping" <:+ db.dataSourceName) ∧
    (∀ q ∈ prepares (handler w r (St.init x)).2.trace,
      q = str "INSERT INTO ping.history(message) VALUES (?)") ∧
    (∀ q args, (q, args) ∈ execs (handler w r (St.init x)).2.trace →
      q = str "INSERT INTO ping.history(message) VALUES (?)") := by
  have hsuf := dsnOf_true_suffix w
  rw [getEnv_eq_envOrDefault] at hsuf
  refine ⟨⟨_, handler_opens w r x, hsuf⟩, ?_, ?_, ?_, ?_⟩
  · intro v hv hv0 db hmem
    rw [envOrDefault_of_set _ _ _ _ hv hv0] at hsuf
    rw [handler_opens] at hmem
    simp only [List.mem_singleton] at hmem
    subst hmem
    exact hsuf
  · intro hdb db hmem
    have hping : envOrDefault w.lookupEnv (str "MYSQL_DATABASE") (str "ping") = str "ping" := by
      rcases hdb with h | h <;> simp [envOrDefault, h]
    rw [hping] at hsuf
    rw [handler_opens] at hmem
    simp only [List.mem_singleton] at hmem
    subst hmem
    exact hsuf
  · rcases r with ⟨m, _ | ⟨b, P⟩⟩
    · rcases handler_nil_cases w x m with ⟨_, _, h⟩ | ⟨_, _, h⟩ | ⟨_, h⟩ <;>
        simp [h, prepares, insertSQL]
    · rcases handler_cons_cases w x m b P with ⟨_, _, h⟩ | ⟨_, _, h⟩ | ⟨_, _, _, _, h⟩ <;>
        simp [h, prepares, insertSQL]
  · rcases r with ⟨m, _ | ⟨b, P⟩⟩
    · rcases handler_nil_cases w x m with ⟨_, _, h⟩ | ⟨_, _, h⟩ | ⟨_, h⟩ <;>
        simp [h, execs]
    · rcases handler_cons_cases w x m b P with ⟨_, _, h⟩ | ⟨_, _, h⟩ | ⟨_, _, _, _, h⟩ <;>
        simp [h, execs, insertSQL]

theorem handler_connection_database_witness :
    ((scriptedWorld customEnv fun _ => false).lookupEnv (str "MYSQL_DATABASE")
        = some (str "test") ∧ str "test" ≠ [] ∧
      ∀ db ∈ opens (handler (scriptedWorld customEnv fun _ => false)
          ⟨str "GET", str "/hello"⟩ (St.init ())).2.trace,
        (str "/" ++ str "test") <:+ db.dataSourceName) ∧
    ((okWorld.lookupEnv (str "MYSQL_DATABASE") = none ∨
        okWorld.lookupEnv (str "MYSQL_DATABASE") = some []) ∧
      ∀ db ∈ opens (handler okWorld ⟨str "GET", str "/hello"⟩ (St.init ())).2.trace,
        str "/ping" <:+ db.dataSourceName) ∧
    (str "INSERT INTO ping.history(message) VALUES (?)" ∈
        prepares (handler (scriptedWorld customEnv fun _ => false)
          ⟨str "GET", str "/hello"⟩ (St.init ())).2.trace ∧
      (str "INSERT INTO ping.history(message) VALUES (?)", [str "hello"]) ∈
        execs (handler (scriptedWorld customEnv fun _ => false)
          ⟨str "GET", str "/hello"⟩ (St.init ())).2.trace ∧
      str "INSERT INTO ping.history(message) VALUES (?)" =
        str "INSERT INTO ping.history(message) VALUES (?)") :=
  ⟨⟨by decide, by decide,
    (handler_connection_database (scriptedWorld customEnv fun _ => false)
      ⟨str "GET", str "/hello"⟩ ()).2.1 (str "test") (by decide) (by decide)⟩,
   ⟨Or.inl rfl,
    (handler_connection_database okWorld ⟨str "GET", str "/hello"⟩ ()).2.2.1 (Or.inl rfl)⟩,
   ⟨by decide, by decide,
    (handler_connection_database (scriptedWorld customEnv fun _ => false)
      ⟨str "GET", str "/hello"⟩ ()).2.2.2.2 _ [str "hello"] (by decide)⟩⟩

/-- C1: for every request whose URL path is `/` followed by `P` (any method, any `P`, so in
particular printable ones of at most 254 characters), when the connection opens and the
statement prepares, `handler` returns normally and writes exactly the bytes
`Value inserted: ` ++ `P` ++ newline to the response, in one write and nothing else; `P` is
an operand of the format, so it is emitted verbatim also when it contains `%`. -/
theorem handler_response_body {σ : Type} (w : World σ) (x : σ) (method P : GoString)
    (hopen : connectionOpened (handler w ⟨method, str "/" ++ P⟩ (St.init x)).2.trace = true)
    (hprep : statementPrepared (handler w ⟨method, str "/" ++ P⟩ (St.init x)).2.trace = true) :
    (handler w ⟨method, str "/" ++ P⟩ (St.init x)).1 = .ok () ∧
    writes (handler w ⟨method, str "/" ++ P⟩ (St.init x)).2.trace =
      [str "Value inserted: " ++ P ++ str "\n"] := by
  rw [str_slash] at hopen hprep ⊢
  rcases handler_cons_cases w x method 47 P with ⟨_, _, h⟩ | ⟨_, _, h⟩ | ⟨_, _, _, _, h⟩
  · simp [h, connectionOpened] at hopen
  · simp [h, statementPrepared] at hprep
  · simp [h, writes]

theorem handler_response_body_witness :
    connectionOpened (handler okWorld ⟨str "POST", str "/" ++ str "50%s %d%"⟩
      (St.init ())).2.trace = true ∧
    statementPrepared (handler okWorld ⟨str "POST", str "/" ++ str "50%s %d%"⟩
      (St.init ())).2.trace = true ∧
    (handler okWorld ⟨str "POST", str "/" ++ str "50%s %d%"⟩ (St.init ())).1 = .ok () ∧
    writes (handler okWorld ⟨str "POST", str "/" ++ str "50%s %d%"⟩ (St.init ())).2.trace =
      [str "Value inserted: " ++ str "50%s %d%" ++ str "\n"] :=
  ⟨by decide, by decide,
   handler_response_body okWorld () (str "POST") (str "50%s %d%") (by decide) (by decide)⟩

/-- C2: for every request whose URL path is `/` followed by `P`, `handler` never executes
anything but the prepared statement `INSERT INTO ping.history(message) VALUES (?)` with the
single bound parameter `P`, at most once, and executes it exactly once when the connection
opens and the statement prepares; `P` is passed on as it is, whatever its length (255, 256 or
more), without validation, sanitisation or truncation. -/
theorem handler_binds_path {σ : Type} (w : World σ) (x : σ) (method P : GoString) :
    (execs (handler w ⟨method, str "/" ++ P⟩ (St.init x)).2.trace = [] ∨
      execs (handler w ⟨method, str "/" ++ P⟩ (St.init x)).2.trace =
        [(str "INSERT INTO ping.history(message) VALUES (?)", [P])]) ∧
    (connectionOpened (handler w ⟨method, str "/" ++ P⟩ (St.init x)).2.trace = true →
      statementPrepared (handler w ⟨method, str "/" ++ P⟩ (St.init x)).2.trace = true →
      execs (handler w ⟨method, str "/" ++ P⟩ (St.init x)).2.trace =
        [(str "INSERT INTO ping.history(message) VALUES (?)", [P])]) := by
  rw [str_slash]
  rcases handler_cons_cases w x method 47 P with ⟨_, _, h⟩ | ⟨_, _, h⟩ | ⟨_, _, _, _, h⟩
  · simp [h, execs, connectionOpened]
  · simp [h, execs, statementPrepared]
  · simp [h, execs, insertSQL]

theorem handler_binds_path_witness :
    connectionOpened (handler okWorld ⟨str "GET", str "/" ++ str "hello"⟩
      (St.init ())).2.trace = true ∧
    statementPrepared (handler okWorld ⟨str "GET", str "/" ++ str "hello"⟩
      (St.init ())).2.trace = true ∧
    execs (handler okWorld ⟨str "GET", str "/" ++ str "hello"⟩ (St.init ())).2.trace =
      [(str "INSERT INTO ping.history(message) VALUES (?)", [str "hello"])] :=
  ⟨by decide, by decide,
   (handler_binds_path okWorld () (str "GET") (str "hello")).2 (by decide) (by decide)⟩

/-- C3: the outcome of executing the insert is never observed by `handler`.  For every
request and any two runs that differ only in the error returned by `Exec` (`e1` in one,
`e2` in the other, each `nil` or an error), the two runs end the same way, write the same
bytes, close the same handles and leave the same external state; and a run in which `Exec`
is called at all returns normally, has written exactly `Value inserted: <path minus its first
byte>` and a newline, and has closed the one connection it opened. -/
theorem handler_ignores_exec_result {σ : Type} (w : World σ) (x : σ) (r : Request)
    (e1 e2 : GoError) :
    (handler (w.withExecResult e1) r (St.init x)).1 =
      (handler (w.withExecResult e2) r (St.init x)).1 ∧
    writes (handler (w.withExecResult e1) r (St.init x)).2.trace =
      writes (handler (w.withExecResult e2) r (St.init x)).2.trace ∧
    closes (handler (w.withExecResult e1) r (St.init x)).2.trace =
      closes (handler (w.withExecResult e2) r (St.init x)).2.trace ∧
    (handler (w.withExecResult e1) r (St.init x)).2.ext =
      (handler (w.withExecResult e2) r (St.init x)).2.ext ∧
    (execs (handler (w.withExecResult e1) r (St.init x)).2.trace ≠ [] →
      (handler (w.withExecResult e1) r (St.init x)).1 = .ok () ∧
      writes (handler (w.withExecResult e1) r (St.init x)).2.trace =
        [str "Value inserted: " ++ r.urlPath.drop 1 ++ str "\n"] ∧
      closes (handler (w.withExecResult e1) r (St.init x)).2.trace =
        opens (handler (w.withExecResult e1) r (St.init x)).2.trace ∧
      (opens (handler (w.withExecResult e1) r (St.init x)).2.trace).length = 1) := by
  rcases r with ⟨m, _ | ⟨b, P⟩⟩
  · rw [handler_nil_withExecResult, handler_nil_withExecResult]
    rcases handler_nil_cases w x m with ⟨_, _, h⟩ | ⟨_, _, h⟩ | ⟨_, h⟩ <;> simp [h, execs]
  · rcases handler_cons_withExecResult w x m b P with ⟨_, _, h⟩ | ⟨_, _, h⟩ | ⟨_, _, _, h⟩
    · simp [h e1, h e2, execs]
    · simp [h e1, h e2, execs]
    · simp [h e1, h e2, execs, writes, closes, opens]

theorem handler_ignores_exec_result_witness :
    execs (handler (okWorld.withExecResult (some (str "Error 1406: Data too long")))
      ⟨str "GET", str "/hello"⟩ (St.init ())).2.trace ≠ [] ∧
    (handler (okWorld.withExecResult (some (str "Error 1406: Data too long")))
      ⟨str "GET", str "/hello"⟩ (St.init ())).1 = .ok () ∧
    writes (handler (okWorld.withExecResult (some (str "Error 1406: Data too long")))
      ⟨str "GET", str "/hello"⟩ (St.init ())).2.trace =
        [str "Value inserted: " ++ (str "/hello").drop 1 ++ str "\n"] ∧
    closes (handler (okWorld.withExecResult (some (str "Error 1406: Data too long")))
      ⟨str "GET", str "/hello"⟩ (St.init ())).2.trace =
        opens (handler (okWorld.withExecResult (some (str "Error 1406: Data too long")))
          ⟨str "GET", str "/hello"⟩ (St.init ())).2.trace ∧
    (opens (handler (okWorld.withExecResult (some (str "Error 1406: Data too long")))
      ⟨str "GET", str "/hello"⟩ (St.init ())).2.trace).length = 1 :=
  ⟨by decide,
   (handler_ignores_exec_result okWorld () ⟨str "GET", str "/hello"⟩
     (some (str "Error 1406: Data too long")) none).2.2.2.2 (by decide)⟩

/-- C10: the slice `r.URL.Path[1:]` is in bounds exactly when the path has length at least 1.
On a non-empty path `handler` drops the first byte whatever it is: the slice is the rest of
the path, the run never ends in a slice panic, and whatever is bound or written is that rest.
On the empty path `handler` never returns normally and writes nothing; when the connection
opens and the statement prepares it panics with the out-of-range slice `[1:0]` right after
those two calls, with no `Exec`, no write and no `Close`. -/
theorem handler_path_slice {σ : Type} (w : World σ) (x : σ) (m : GoString) :
    (∀ path : GoString, (∃ v, sliceFrom path 1 = .ok v) ↔ 1 ≤ path.length) ∧
    (∀ (b : UInt8) (P : GoString),
      sliceFrom (b :: P) 1 = .ok P ∧
      (∀ lo len, (handler w ⟨m, b :: P⟩ (St.init x)).1 ≠ .error (.sliceBounds lo len)) ∧
      (∀ q args, (q, args) ∈ execs (handler w ⟨m, b :: P⟩ (St.init x)).2.trace →
        args = [P]) ∧
      (∀ body ∈ writes (handler w ⟨m, b :: P⟩ (St.init x)).2.trace,
        body = str "Value inserted: " ++ P ++ str "\n")) ∧
    ((handler w ⟨m, []⟩ (St.init x)).1 ≠ .ok () ∧
      writes (handler w ⟨m, []⟩ (St.init x)).2.trace = []) ∧
    (connectionOpened (handler w ⟨m, []⟩ (St.init x)).2.trace = true →
      statementPrepared (handler w ⟨m, []⟩ (St.init x)).2.trace = true →
      (handler w ⟨m, []⟩ (St.init x)).1 = .error (.sliceBounds 1 0) ∧
      (handler w ⟨m, []⟩ (St.init x)).2.trace =
        [(.sqlOpen (driverOf w) (dsnOf w true), none),
         (.dbPrepare ⟨driverOf w, dsnOf w true⟩ insertSQL, none)]) := by
  refine ⟨?_, ?_, ?_, ?_⟩
  · intro path
    cases path with
    | nil => simp [sliceFrom]
    | cons b P => simp [sliceFrom]
  · intro b P
    refine ⟨sliceFrom_cons b P, ?_⟩
    rcases handler_cons_cases w x m b P with ⟨_, _, h⟩ | ⟨_, _, h⟩ | ⟨_, _, _, _, h⟩ <;>
      simp [h, execs, writes]
  · rcases handler_nil_cases w x m with ⟨_, _, h⟩ | ⟨_, _, h⟩ | ⟨_, h⟩ <;> simp [h, writes]
  · intro hopen hprep
    rcases handler_nil_cases w x m with ⟨_, _, h⟩ | ⟨_, _, h⟩ | ⟨_, h⟩
    · simp [h, connectionOpened] at hopen
    · simp [h, statementPrepared] at hprep
    · simp [h]

theorem handler_path_slice_witness :
    ((str "INSERT INTO ping.history(message) VALUES (?)", [[]]) ∈
      execs (handler okWorld ⟨str "OPTIONS", str "*"⟩ (St.init ())).2.trace) ∧
    connectionOpened (handler okWorld ⟨str "GET", []⟩ (St.init ())).2.trace = true ∧
    statementPrepared (handler okWorld ⟨str "GET", []⟩ (St.init ())).2.trace = true ∧
    (handler okWorld ⟨str "GET", []⟩ (St.init ())).1 = .error (.sliceBounds 1 0) ∧
    (handler okWorld ⟨str "GET", []⟩ (St.init ())).2.trace =
      [(.sqlOpen (driverOf okWorld) (dsnOf okWorld true), none),
       (.dbPrepare ⟨driverOf okWorld, dsnOf okWorld true⟩ insertSQL, none)] ∧
    ([[]] : List GoString) = [[]] :=
  ⟨by decide, by decide, by decide,
   ((handler_path_slice okWorld () (str "GET")).2.2.2 (by decide) (by decide)).1,
   ((handler_path_slice okWorld () (str "GET")).2.2.2 (by decide) (by decide)).2,
   ((handler_path_slice okWorld () (str "OPTIONS")).2.1 42 []).2.2.1
     (str "INSERT INTO ping.history(message) VALUES (?)") [[]] (by decide)⟩

/-- C5 fails on the code: `defer db.Close()` is the last statement of `dbInit`, so it is not
yet registered when an `ExecContext` error panics.  When `CREATE DATABASE` is refused the run
is `sql.Open`, `ExecContext`, `cancelfunc` and a panic; when `CREATE TABLE` is refused it is
`sql.Open`, two `ExecContext`, `cancelfunc` and a panic; in both the opened handle is never
closed.  Only the run in which both commands succeed closes it. -/
theorem dbInit_close_skipped_on_failure :
    ((dbInit (scriptedWorld noEnv (failsCommand createDatabaseSQL)) (St.init ())).1 =
        .error (.value (str "refused")) ∧
      (dbInit (scriptedWorld noEnv (failsCommand createDatabaseSQL)) (St.init ())).2.trace =
        [(.sqlOpen (str "mysql") (str "root:@tcp(127.0.0.1:3306)/"), none),
         (.dbExecContext ⟨str "mysql", str "root:@tcp(127.0.0.1:3306)/"⟩ createDatabaseSQL,
           some (str "refused")),
         (.cancelfunc, none)] ∧
      closes (dbInit (scriptedWorld noEnv (failsCommand createDatabaseSQL))
        (St.init ())).2.trace = []) ∧
    ((dbInit (scriptedWorld noEnv (failsCommand createTableSQL)) (St.init ())).1 =
        .error (.value (str "refused")) ∧
      (dbInit (scriptedWorld noEnv (failsCommand createTableSQL)) (St.init ())).2.trace =
        [(.sqlOpen (str "mysql") (str "root:@tcp(127.0.0.1:3306)/"), none),
         (.dbExecContext ⟨str "mysql", str "root:@tcp(127.0.0.1:3306)/"⟩ createDatabaseSQL,
           none),
         (.dbExecContext ⟨str "mysql", str "root:@tcp(127.0.0.1:3306)/"⟩ createTableSQL,
           some (str "refused")),
         (.cancelfunc, none)] ∧
      closes (dbInit (scriptedWorld noEnv (failsCommand createTableSQL))
        (St.init ())).2.trace = []) ∧
    ((dbInit okWorld (St.init ())).1 = .ok () ∧
      closes (dbInit okWorld (St.init ())).2.trace =
        [⟨str "mysql", str "root:@tcp(127.0.0.1:3306)/"⟩]) := by
  decide

/-- C6: startup is fail-fast and ordered.  The commands `dbInit` issues are, in order,
`CREATE DATABASE IF NOT EXISTS ping;` and then `CREATE TABLE IF NOT EXISTS ping.history
(message CHAR(255));`, the second only after the first succeeded, and none when `sql.Open`
fails; `dbInit` returns normally exactly when both succeeded and panics otherwise; `main`
issues the same commands and then registers the handler on `/` and starts the listener on
`:8080` if and only if both commands succeeded, making no `net/http` call at all otherwise.
In terms of the world: where `sql.Open` and both commands are answered without error, both
commands are issued, `dbInit` returns, and `main` registers the handler and starts the
listener; where `sql.Open` fails no command is issued; where the first command fails the
second is not issued; where the second fails both were issued; and in each of these three
`main` panics without a `net/http` call. -/
theorem startup_fail_fast {σ : Type} (w : World σ) (x : σ) :
    (commands (dbInit w (St.init x)).2.trace = [] ∧
        connectionOpened (dbInit w (St.init x)).2.trace = false ∨
      commands (dbInit w (St.init x)).2.trace = [(createDatabaseSQL, false)] ∨
      commands (dbInit w (St.init x)).2.trace =
        [(createDatabaseSQL, true), (createTableSQL, false)] ∨
      commands (dbInit w (St.init x)).2.trace =
        [(createDatabaseSQL, true), (createTableSQL, true)]) ∧
    ((dbInit w (St.init x)).1 = .ok () ↔
      commands (dbInit w (St.init x)).2.trace =
        [(createDatabaseSQL, true), (createTableSQL, true)]) ∧
    ((∃ p, (dbInit w (St.init x)).1 = .error (.value p)) ↔
      commands (dbInit w (St.init x)).2.trace ≠
        [(createDatabaseSQL, true), (createTableSQL, true)]) ∧
    commands (main w (St.init x)).2.trace = commands (dbInit w (St.init x)).2.trace ∧
    (served (main w (St.init x)).2.trace =
        [.handleFunc (str "/"), .listenAndServe (str ":8080")] ↔
      commands (main w (St.init x)).2.trace =
        [(createDatabaseSQL, true), (createTableSQL, true)]) ∧
    (served (main w (St.init x)).2.trace = [] ↔
      commands (main w (St.init x)).2.trace ≠
        [(createDatabaseSQL, true), (createTableSQL, true)]) ∧
    ((∀ d n y, (w.respond (.sqlOpen d n) y).1 = none) →
      (∀ db y, (w.respond (.dbExecContext db createDatabaseSQL) y).1 = none) →
      (∀ db y, (w.respond (.dbExecContext db createTableSQL) y).1 = none) →
      (dbInit w (St.init x)).1 = .ok () ∧
      (main w (St.init x)).1 = .ok () ∧
      commands (main w (St.init x)).2.trace =
        [(str "CREATE DATABASE IF NOT EXISTS ping;", true),
         (str "CREATE TABLE IF NOT EXISTS ping.history (message CHAR(255));", true)] ∧
      served (main w (St.init x)).2.trace =
        [.handleFunc (str "/"), .listenAndServe (str ":8080")]) ∧
    ((∀ d n y, (w.respond (.sqlOpen d n) y).1 ≠ none) →
      (∃ p, (main w (St.init x)).1 = .error (.value p)) ∧
      commands (main w (St.init x)).2.trace = [] ∧
      served (main w (St.init x)).2.trace = []) ∧
    ((∀ d n y, (w.respond (.sqlOpen d n) y).1 = none) →
      (∀ db y, (w.respond (.dbExecContext db createDatabaseSQL) y).1 ≠ none) →
      (∃ p, (main w (St.init x)).1 = .error (.value p)) ∧
      commands (main w (St.init x)).2.trace =
        [(str "CREATE DATABASE IF NOT EXISTS ping;", false)] ∧
      served (main w (St.init x)).2.trace = []) ∧
    ((∀ d n y, (w.respond (.sqlOpen d n) y).1 = none) →
      (∀ db y, (w.respond (.dbExecContext db createDatabaseSQL) y).1 = none) →
      (∀ db y, (w.respond (.dbExecContext db createTableSQL) y).1 ≠ none) →
      (∃ p, (main w (St.init x)).1 = .error (.value p)) ∧
      commands (main w (St.init x)).2.trace =
        [(str "CREATE DATABASE IF NOT EXISTS ping;", true),
         (str "CREATE TABLE IF NOT EXISTS ping.history (message CHAR(255));", false)] ∧
      served (main w (St.init x)).2.trace = []) := by
  refine ⟨?_, ?_, ?_, ?_, ?_, ?_, ?_, ?_, ?_, ?_⟩
  case refine_7 =>
    intro hopen h1 h2
    have r := startup_runs w x
    rcases r with ⟨e, x0, ho, _⟩ | ⟨e, x0, x1, ho, hc1, _⟩ | ⟨e, x0, x1, x2, ho, hc1, hc2, _⟩ |
      ⟨x0, x1, x2, ho, hc1, hc2, hd, hm, hc, hs⟩
    · exact absurd (hopen _ _ x) (by rw [ho]; simp)
    · exact absurd (h1 _ x0) (by rw [hc1]; simp)
    · exact absurd (h2 _ x1) (by rw [hc2]; simp)
    · exact ⟨hd, hm, hc, hs⟩
  case refine_8 =>
    intro hopen
    have r := startup_runs w x
    rcases r with ⟨e, x0, ho, _, hm, hc, hs⟩ | ⟨e, x0, x1, ho, _⟩ | ⟨e, x0, x1, x2, ho, _⟩ |
      ⟨x0, x1, x2, ho, _⟩
    · exact ⟨⟨e, hm⟩, hc, hs⟩
    · exact absurd (by rw [ho]) (hopen _ _ x)
    · exact absurd (by rw [ho]) (hopen _ _ x)
    · exact absurd (by rw [ho]) (hopen _ _ x)
  case refine_9 =>
    intro hopen h1
    have r := startup_runs w x
    rcases r with ⟨e, x0, ho, _⟩ | ⟨e, x0, x1, ho, hc1, _, hm, hc, hs⟩ |
      ⟨e, x0, x1, x2, ho, hc1, _⟩ | ⟨x0, x1, x2, ho, hc1, _⟩
    · exact absurd (hopen _ _ x) (by rw [ho]; simp)
    · exact ⟨⟨e, hm⟩, hc, hs⟩
    · exact absurd (by rw [hc1]) (h1 _ x0)
    · exact absurd (by rw [hc1]) (h1 _ x0)
  case refine_10 =>
    intro hopen h1 h2
    have r := startup_runs w x
    rcases r with ⟨e, x0, ho, _⟩ | ⟨e, x0, x1, ho, hc1, _⟩ |
      ⟨e, x0, x1, x2, ho, hc1, hc2, _, hm, hc, hs⟩ | ⟨x0, x1, x2, ho, hc1, hc2, _⟩
    · exact absurd (hopen _ _ x) (by rw [ho]; simp)
    · exact absurd (h1 _ x0) (by rw [hc1]; simp)
    · exact ⟨⟨e, hm⟩, hc, hs⟩
    · exact absurd (by rw [hc2]) (h2 _ x1)
  all_goals
    rcases main_cases w x with ⟨p, hp, hm⟩ | ⟨_, _, _, _, hok, hm⟩
    · first
        | (rw [hm]; done)
        | (try rw [hm]
           rcases dbInit_cases w x with ⟨_, _, _, _, _, h⟩ | ⟨_, _, _, _, _, _, _, h⟩ |
               ⟨_, _, _, _, _, _, _, _, _, h⟩ | ⟨_, _, _, _, _, _, _, _, _, h⟩ <;>
             simp [h, commands, served, connectionOpened] at hp ⊢)
    · first
        | (rw [hm]; done)
        | (try rw [hm]
           rcases dbInit_cases w x with ⟨_, _, _, _, _, h⟩ | ⟨_, _, _, _, _, _, _, h⟩ |
               ⟨_, _, _, _, _, _, _, _, _, h⟩ | ⟨_, _, _, _, _, _, _, _, _, h⟩ <;>
             simp [h, commands, served, connectionOpened] at hok ⊢)

theorem startup_fail_fast_witness :
    ((∀ d n y, (okWorld.respond (.sqlOpen d n) y).1 = none) ∧
      (∀ db y, (okWorld.respond (.dbExecContext db createDatabaseSQL) y).1 = none) ∧
      (∀ db y, (okWorld.respond (.dbExecContext db createTableSQL) y).1 = none) ∧
      (dbInit okWorld (St.init ())).1 = .ok () ∧
      (main okWorld (St.init ())).1 = .ok () ∧
      commands (main okWorld (St.init ())).2.trace =
        [(str "CREATE DATABASE IF NOT EXISTS ping;", true),
         (str "CREATE TABLE IF NOT EXISTS ping.history (message CHAR(255));", true)] ∧
      served (main okWorld (St.init ())).2.trace =
        [.handleFunc (str "/"), .listenAndServe (str ":8080")]) ∧
    ((∀ d n y, ((scriptedWorld noEnv failsOpen).respond (.sqlOpen d n) y).1 ≠ none) ∧
      (∃ p, (main (scriptedWorld noEnv failsOpen) (St.init ())).1 = .error (.value p)) ∧
      commands (main (scriptedWorld noEnv failsOpen) (St.init ())).2.trace = [] ∧
      served (main (scriptedWorld noEnv failsOpen) (St.init ())).2.trace = []) ∧
    ((∀ d n y, ((scriptedWorld noEnv (failsCommand createDatabaseSQL)).respond
          (.sqlOpen d n) y).1 = none) ∧
      (∀ db y, ((scriptedWorld noEnv (failsCommand createDatabaseSQL)).respond
          (.dbExecContext db createDatabaseSQL) y).1 ≠ none) ∧
      (∃ p, (main (scriptedWorld noEnv (failsCommand createDatabaseSQL)) (St.init ())).1 =
        .error (.value p)) ∧
      commands (main (scriptedWorld noEnv (failsCommand createDatabaseSQL))
        (St.init ())).2.trace = [(str "CREATE DATABASE IF NOT EXISTS ping;", false)] ∧
      served (main (scriptedWorld noEnv (failsCommand createDatabaseSQL))
        (St.init ())).2.trace = []) ∧
    ((∀ d n y, ((scriptedWorld noEnv (failsCommand createTableSQL)).respond
          (.sqlOpen d n) y).1 = none) ∧
      (∀ db y, ((scriptedWorld noEnv (failsCommand createTableSQL)).respond
          (.dbExecContext db createDatabaseSQL) y).1 = none) ∧
      (∀ db y, ((scriptedWorld noEnv (failsCommand createTableSQL)).respond
          (.dbExecContext db createTableSQL) y).1 ≠ none) ∧
      (∃ p, (main (scriptedWorld noEnv (failsCommand createTableSQL)) (St.init ())).1 =
        .error (.value p)) ∧
      commands (main (scriptedWorld noEnv (failsCommand createTableSQL))
        (St.init ())).2.trace =
        [(str "CREATE DATABASE IF NOT EXISTS ping;", true),
         (str "CREATE TABLE IF NOT EXISTS ping.history (message CHAR(255));", false)] ∧
      served (main (scriptedWorld noEnv (failsCommand createTableSQL))
        (St.init ())).2.trace = []) :=
  ⟨⟨fun _ _ _ => rfl, fun _ _ => rfl, fun _ _ => rfl,
    (startup_fail_fast okWorld ()).2.2.2.2.2.2.1
      (fun _ _ _ => rfl) (fun _ _ => rfl) (fun _ _ => rfl)⟩,
   ⟨fun _ _ _ => by simp [scriptedWorld, failsOpen],
    (startup_fail_fast (scriptedWorld noEnv failsOpen) ()).2.2.2.2.2.2.2.1
      (fun _ _ _ => by simp [scriptedWorld, failsOpen])⟩,
   ⟨fun _ _ _ => rfl,
    fun _ _ => by simp [scriptedWorld, failsCommand],
    (startup_fail_fast (scriptedWorld noEnv (failsCommand createDatabaseSQL))
        ()).2.2.2.2.2.2.2.2.1
      (fun _ _ _ => rfl) (fun _ _ => by simp [scriptedWorld, failsCommand])⟩,
   ⟨fun _ _ _ => rfl,
    fun _ _ => by simp [scriptedWorld, failsCommand, createTableSQL_ne.symm],
    fun _ _ => by simp [scriptedWorld, failsCommand],
    (startup_fail_fast (scriptedWorld noEnv (failsCommand createTableSQL))
        ()).2.2.2.2.2.2.2.2.2
      (fun _ _ _ => rfl)
      (fun _ _ => by simp [scriptedWorld, failsCommand, createTableSQL_ne.symm])
      (fun _ _ => by simp [scriptedWorld, failsCommand])⟩⟩

/-- C7: initialization is idempotent over the model server, on which `CREATE ... IF NOT
EXISTS` is a no-op on an existing object.  Run on a server that already has database `ping`
and table `ping.history`, `dbInit` raises no error and leaves the server's databases and
tables, with their column definitions, exactly as they were.  Run on any server, `dbInit`
raises no error, a second run right after it raises none either, and the state after two
runs is the state after one. -/
theorem dbInit_idempotent (env : GoString → Option GoString) (sv : Server) :
    (str "ping" ∈ sv.databases → sv.hasHistory = true →
      (dbInit (mysqlWorld env) (St.init sv)).1 = .ok () ∧
      (dbInit (mysqlWorld env) (St.init sv)).2.ext = sv) ∧
    (dbInit (mysqlWorld env) (St.init sv)).1 = .ok () ∧
    (dbInit (mysqlWorld env) (dbInit (mysqlWorld env) (St.init sv)).2).1 = .ok () ∧
    (dbInit (mysqlWorld env) (dbInit (mysqlWorld env) (St.init sv)).2).2.ext =
      (dbInit (mysqlWorld env) (St.init sv)).2.ext := by
  have h1 := dbInit_mysqlWorld env (St.init sv)
  have h2 := dbInit_mysqlWorld env (dbInit (mysqlWorld env) (St.init sv)).2
  refine ⟨?_, h1.1, h2.1, ?_⟩
  · intro hdb htab
    refine ⟨h1.1, ?_⟩
    rw [h1.2]
    simp only [St.init]
    rw [createPing_of_mem sv hdb, createHistory_of_has sv htab]
  · rw [h2.2, h1.2]
    simp only [St.init]
    rw [createPing_of_mem sv.createPing.createHistory
        (by rw [createHistory_databases]; exact createPing_has_ping sv),
      createHistory_of_has _ (createHistory_has _)]

theorem dbInit_idempotent_witness :
    str "ping" ∈ readyServer.databases ∧ readyServer.hasHistory = true ∧
    (dbInit (mysqlWorld noEnv) (St.init readyServer)).1 = .ok () ∧
    (dbInit (mysqlWorld noEnv) (St.init readyServer)).2.ext = readyServer :=
  ⟨by decide, by decide, (dbInit_idempotent noEnv readyServer).1 (by decide) (by decide)⟩

end App
